import Mathlib

/-!
Verification of the Malaysian mortgage calculator's financial engine.

The calculation functions of the repository (calculations file, plus the
tier tables from js/data.js) are embedded shallowly over the rationals:
JavaScript numbers become exact rationals, JavaScript arithmetic becomes
rational arithmetic, and the one place where a claim is specifically
about IEEE non-finite values (the Islamic Musharakah Mutanaqisah
computation at zero rental rate) is modelled with an explicit value type
carrying NaN and signed infinities.  Loops become structural recursion
(over a month count) or fuel-indexed recursion (for the unbounded
extra-payment while-loop).
-/

namespace Mortgage

/-- Embedding of roundToTwoDecimals: Math.round(num * 100) / 100.
JavaScript Math.round rounds half toward positive infinity, i.e.
Math.round(y) = ⌊y + 1/2⌋. -/
def roundToTwoDecimals (x : ℚ) : ℚ :=
  ((⌊x * 100 + 1 / 2⌋ : ℤ) : ℚ) / 100

/-- Result record of calculateMonthlyPayment. -/
structure PaymentSummary where
  monthlyPayment : ℚ
  totalPayment : ℚ
  totalInterest : ℚ
  effectiveRate : ℚ

/-- Embedding of calculateMonthlyPayment(principal, annualRate, tenureYears). -/
def calculateMonthlyPayment (principal annualRate : ℚ) (tenureYears : ℕ) : PaymentSummary :=
  let monthlyRate := annualRate / 100 / 12
  let totalMonths : ℕ := tenureYears * 12
  if monthlyRate = 0 then
    { monthlyPayment := principal / (totalMonths : ℚ)
      totalPayment := principal
      totalInterest := 0
      effectiveRate := 0 }
  else
    let monthlyPayment := principal * (monthlyRate * (1 + monthlyRate) ^ totalMonths) /
      ((1 + monthlyRate) ^ totalMonths - 1)
    let totalPayment := monthlyPayment * (totalMonths : ℚ)
    let totalInterest := totalPayment - principal
    { monthlyPayment := roundToTwoDecimals monthlyPayment
      totalPayment := roundToTwoDecimals totalPayment
      totalInterest := roundToTwoDecimals totalInterest
      effectiveRate := roundToTwoDecimals (totalInterest / principal * 100) }

/-- One row of the amortization schedule. -/
structure AmortRow where
  month : ℕ
  year : ℕ
  payment : ℚ
  principal : ℚ
  interest : ℚ
  balance : ℚ
  cumulativeInterest : ℚ
  cumulativePrincipal : ℚ

/-- The month loop of generateAmortizationSchedule: one recursive step per
month, carrying the remaining month count, the next month number, the raw
balance and the raw cumulative sums. -/
def amortAux (MP r : ℚ) : ℕ → ℕ → ℚ → ℚ → ℚ → List AmortRow
  | 0, _, _, _, _ => []
  | Nat.succ k, month, balance, cumI, cumP =>
    let interest := balance * r
    let principalPay := MP - interest
    let newBal := max 0 (balance - principalPay)
    { month := month
      year := (month + 11) / 12
      payment := roundToTwoDecimals MP
      principal := roundToTwoDecimals principalPay
      interest := roundToTwoDecimals interest
      balance := roundToTwoDecimals newBal
      cumulativeInterest := roundToTwoDecimals (cumI + interest)
      cumulativePrincipal := roundToTwoDecimals (cumP + principalPay) } ::
      amortAux MP r k (month + 1) newBal (cumI + interest) (cumP + principalPay)

/-- Embedding of generateAmortizationSchedule(principal, annualRate, tenureYears). -/
def generateAmortizationSchedule (principal annualRate : ℚ) (tenureYears : ℕ) : List AmortRow :=
  let monthlyRate := annualRate / 100 / 12
  let totalMonths := tenureYears * 12
  let MP := (calculateMonthlyPayment principal annualRate tenureYears).monthlyPayment
  amortAux MP monthlyRate totalMonths 1 principal 0 0

/-- The body of one ordinary simulated month in calculateExtraPaymentImpact
(after any lump-sum handling): given the remaining balance it returns the
new balance, the interest added to totalInterestPaid, and the amount added
to totalPaid.  Mirrors lines 110-123 of the calculations file. -/
def extraMonthStep (MP r extra b : ℚ) : ℚ × ℚ × ℚ :=
  let interest := b * r
  let regularPrincipal := MP - interest
  let totalPrincipalPayment := regularPrincipal + extra
  if b ≤ totalPrincipalPayment + interest then (0, interest, b + interest)
  else (b - totalPrincipalPayment, interest, MP + extra)

/-- Mutable state of the while-loop in calculateExtraPaymentImpact. -/
structure ExtraState where
  balance : ℚ
  totalInterestPaid : ℚ
  totalPaid : ℚ
  month : ℕ

/-- Fuel-indexed embedding of the while (balance > 0) loop of
calculateExtraPaymentImpact.  Returns none when the fuel runs out before
the loop exits, so divergence of the source loop shows up as none for
every fuel value. -/
def extraLoop (MP r extra lumpSum : ℚ) (lumpSumMonth : ℕ) :
    ℕ → ExtraState → Option ExtraState
  | 0, _ => none
  | Nat.succ fuel, s =>
    if s.balance ≤ 0 then some s
    else
      let month := s.month + 1
      let s1 : ExtraState :=
        if month = lumpSumMonth ∧ 0 < lumpSum then
          { balance := max 0 (s.balance - lumpSum)
            totalInterestPaid := s.totalInterestPaid
            totalPaid := s.totalPaid + lumpSum
            month := month }
        else
          { s with month := month }
      if s1.balance ≤ 0 then some s1
      else
        let step := extraMonthStep MP r extra s1.balance
        extraLoop MP r extra lumpSum lumpSumMonth fuel
          { balance := step.1
            totalInterestPaid := s1.totalInterestPaid + step.2.1
            totalPaid := s1.totalPaid + step.2.2
            month := s1.month }

/-- Result record of calculateExtraPaymentImpact (flattened). -/
structure ExtraImpact where
  originalMonthlyPayment : ℚ
  originalTotalMonths : ℕ
  originalTotalInterest : ℚ
  originalTotalPayment : ℚ
  extraMonthlyPayment : ℚ
  extraTotalMonths : ℕ
  extraTotalYears : ℚ
  extraTotalInterest : ℚ
  extraTotalPayment : ℚ
  monthsSaved : ℤ
  yearsSaved : ℚ
  interestSaved : ℚ
  totalSaved : ℚ

/-- Embedding of calculateExtraPaymentImpact.  The extra fuel argument
bounds the number of iterations of the source's unbounded while-loop;
none means the loop had not finished within that many iterations. -/
def calculateExtraPaymentImpact (principal annualRate : ℚ) (tenureYears : ℕ)
    (extraMonthly lumpSum : ℚ) (lumpSumMonth : ℕ) (fuel : ℕ) : Option ExtraImpact :=
  let original := calculateMonthlyPayment principal annualRate tenureYears
  let monthlyRate := annualRate / 100 / 12
  match extraLoop original.monthlyPayment monthlyRate extraMonthly lumpSum lumpSumMonth fuel
      ⟨principal, 0, 0, 0⟩ with
  | none => none
  | some s =>
    let originalTotalMonths := tenureYears * 12
    some
      { originalMonthlyPayment := original.monthlyPayment
        originalTotalMonths := originalTotalMonths
        originalTotalInterest := original.totalInterest
        originalTotalPayment := original.totalPayment
        extraMonthlyPayment := original.monthlyPayment + extraMonthly
        extraTotalMonths := s.month
        extraTotalYears := roundToTwoDecimals ((s.month : ℚ) / 12)
        extraTotalInterest := roundToTwoDecimals s.totalInterestPaid
        extraTotalPayment := roundToTwoDecimals s.totalPaid
        monthsSaved := (originalTotalMonths : ℤ) - (s.month : ℤ)
        yearsSaved := roundToTwoDecimals ((((originalTotalMonths : ℤ) - (s.month : ℤ) : ℤ) : ℚ) / 12)
        interestSaved := roundToTwoDecimals (original.totalInterest - s.totalInterestPaid)
        totalSaved := roundToTwoDecimals (original.totalPayment - s.totalPaid) }

/-- Current-loan input of compareRefinancing. -/
structure CurrentLoan where
  balance : ℚ
  rate : ℚ
  remainingYears : ℕ

/-- Proposed-loan input of compareRefinancing. -/
structure NewLoan where
  rate : ℚ
  tenureYears : ℕ
  closingCosts : ℚ

/-- Result record of compareRefinancing.  The JavaScript source stores
Infinity in breakEvenMonths when the monthly difference is not positive and
renders it as the string N/A; that sentinel is modelled as none. -/
structure RefiComparison where
  currentMonthlyPayment : ℚ
  currentTotalInterest : ℚ
  currentTotalPayment : ℚ
  remainingMonths : ℕ
  refiMonthlyPayment : ℚ
  refiTotalInterest : ℚ
  refiTotalPayment : ℚ
  newTenureMonths : ℕ
  closingCosts : ℚ
  monthlyDifference : ℚ
  totalInterestSaved : ℚ
  breakEvenMonths : Option ℤ
  breakEvenYears : Option ℚ
  netSavings : ℚ
  worthRefinancing : Bool

/-- Embedding of compareRefinancing(currentLoan, newLoan). -/
def compareRefinancing (currentLoan : CurrentLoan) (newLoan : NewLoan) : RefiComparison :=
  let current := calculateMonthlyPayment currentLoan.balance currentLoan.rate
    currentLoan.remainingYears
  let newCalc := calculateMonthlyPayment currentLoan.balance newLoan.rate newLoan.tenureYears
  let monthlyDifference := current.monthlyPayment - newCalc.monthlyPayment
  let totalInterestDifference := current.totalInterest - newCalc.totalInterest
  let breakEvenMonths : Option ℤ :=
    if 0 < monthlyDifference then some ⌈newLoan.closingCosts / monthlyDifference⌉ else none
  let netSavings := totalInterestDifference - newLoan.closingCosts
  { currentMonthlyPayment := current.monthlyPayment
    currentTotalInterest := current.totalInterest
    currentTotalPayment := current.totalPayment
    remainingMonths := currentLoan.remainingYears * 12
    refiMonthlyPayment := newCalc.monthlyPayment
    refiTotalInterest := newCalc.totalInterest
    refiTotalPayment := newCalc.totalPayment + newLoan.closingCosts
    newTenureMonths := newLoan.tenureYears * 12
    closingCosts := newLoan.closingCosts
    monthlyDifference := roundToTwoDecimals monthlyDifference
    totalInterestSaved := roundToTwoDecimals totalInterestDifference
    breakEvenMonths := breakEvenMonths
    breakEvenYears := breakEvenMonths.map (fun k => roundToTwoDecimals ((k : ℚ) / 12))
    netSavings := roundToTwoDecimals netSavings
    worthRefinancing :=
      decide (0 < netSavings) &&
        match breakEvenMonths with
        | some k => decide (k < (newLoan.tenureYears * 12 : ℤ))
        | none => false }

/-- One tier of the MOT stamp-duty table; none as upper bound models the
Infinity bound of the last tier. -/
structure MOTTier where
  tmin : ℚ
  tmax : Option ℚ
  rate : ℚ

/-- The STAMP_DUTY_MOT.standard table from js/data.js. -/
def motTiers : List MOTTier :=
  [⟨0, some 100000, 1 / 100⟩,
   ⟨100000, some 500000, 2 / 100⟩,
   ⟨500000, some 1000000, 3 / 100⟩,
   ⟨1000000, none, 4 / 100⟩]

/-- One breakdown entry of the tier walk (the display string of the range
is presentation-only and not modelled). -/
structure TierEntry where
  rate : ℚ
  taxableAmount : ℚ
  duty : ℚ

/-- The tier loop of calculateStampDutyMOT: walks the tiers in order,
taxing min(remaining, tier width) at each rate, stopping once the
remaining value is exhausted.  Returns the raw (unrounded) total duty and
the breakdown list. -/
def tierWalk : List MOTTier → ℚ → ℚ × List TierEntry
  | [], _ => (0, [])
  | t :: ts, remainingValue =>
    if remainingValue ≤ 0 then (0, [])
    else
      let taxableAmount :=
        match t.tmax with
        | none => remainingValue
        | some m => min remainingValue (m - t.tmin)
      let tierDuty := taxableAmount * t.rate
      let rest := tierWalk ts (remainingValue - taxableAmount)
      (tierDuty + rest.1,
        { rate := t.rate
          taxableAmount := roundToTwoDecimals taxableAmount
          duty := roundToTwoDecimals tierDuty } :: rest.2)

/-- Which exemption note calculateStampDutyMOT attaches (the source uses
descriptive strings; only their identity matters here). -/
inductive ExemptionTag where
  | noExemption
  | firstTimeBuyer
  | hoc
deriving DecidableEq

/-- Result record of calculateStampDutyMOT. -/
structure MOTResult where
  grossStampDuty : ℚ
  exemption : ℚ
  exemptionTag : ExemptionTag
  netStampDuty : ℚ
  breakdown : List TierEntry

/-- Embedding of calculateStampDutyMOT(propertyPrice, isFirstTimeBuyer,
applyHOC), with the exemption constants of STAMP_DUTY_MOT from
js/data.js (first-time-buyer: 100 percent up to 500000; HOC: 75 percent on
the band 300000..2500000). -/
def calculateStampDutyMOT (propertyPrice : ℚ) (isFirstTimeBuyer applyHOC : Bool) : MOTResult :=
  let w := tierWalk motTiers propertyPrice
  let stampDuty := w.1
  let ex : ℚ × ExemptionTag :=
    if isFirstTimeBuyer ∧ propertyPrice ≤ 500000 then
      (stampDuty * 1, ExemptionTag.firstTimeBuyer)
    else if applyHOC ∧ 300000 ≤ propertyPrice ∧ propertyPrice ≤ 2500000 then
      (stampDuty * (75 / 100), ExemptionTag.hoc)
    else (0, ExemptionTag.noExemption)
  { grossStampDuty := roundToTwoDecimals stampDuty
    exemption := roundToTwoDecimals ex.1
    exemptionTag := ex.2
    netStampDuty := roundToTwoDecimals (stampDuty - ex.1)
    breakdown := w.2 }

/-- A JavaScript double restricted to the values reachable by the Islamic
MM computation: an exact finite value, a signed infinity, or NaN. -/
inductive JSVal where
  | fin (q : ℚ)
  | inf (pos : Bool)
  | nan
deriving DecidableEq

/-- IEEE multiplication on the modelled values. -/
def JSVal.mul : JSVal → JSVal → JSVal
  | .nan, _ => .nan
  | _, .nan => .nan
  | .fin a, .fin b => .fin (a * b)
  | .inf s, .fin b => if b = 0 then .nan else .inf (s == decide (0 < b))
  | .fin a, .inf s => if a = 0 then .nan else .inf (s == decide (0 < a))
  | .inf s, .inf t => .inf (s == t)

/-- IEEE subtraction on the modelled values. -/
def JSVal.sub : JSVal → JSVal → JSVal
  | .nan, _ => .nan
  | _, .nan => .nan
  | .fin a, .fin b => .fin (a - b)
  | .inf s, .fin _ => .inf s
  | .fin _, .inf s => .inf (!s)
  | .inf s, .inf t => if s == t then .nan else .inf s

/-- roundToTwoDecimals lifted to JavaScript values: Math.round fixes NaN
and the infinities. -/
def JSVal.round2 : JSVal → JSVal
  | .fin q => .fin (roundToTwoDecimals q)
  | v => v

/-- Result record of calculateIslamicMM. -/
structure MMResult where
  propertyValue : ℚ
  customerInitialShare : ℚ
  bankShare : ℚ
  rentalRate : ℚ
  monthlyPayment : JSVal
  totalPayment : JSVal
  totalRental : JSVal
  totalMonths : ℕ

/-- Embedding of calculateIslamicMM(principal, customerContribution,
rentalRate, tenureYears).  The annuity quotient is evaluated with IEEE
semantics: a zero denominator yields NaN when the numerator is also zero
and a signed infinity otherwise, exactly as JavaScript division does. -/
def calculateIslamicMM (principal customerContribution rentalRate : ℚ)
    (tenureYears : ℕ) : MMResult :=
  let bankShare := principal - customerContribution
  let totalMonths := tenureYears * 12
  let monthlyRate := rentalRate / 100 / 12
  let numer := bankShare * (monthlyRate * (1 + monthlyRate) ^ totalMonths)
  let denom := (1 + monthlyRate) ^ totalMonths - 1
  let monthlyPayment : JSVal :=
    if denom = 0 then
      (if numer = 0 then JSVal.nan else JSVal.inf (decide (0 < numer)))
    else JSVal.fin (numer / denom)
  let totalPayment := monthlyPayment.mul (JSVal.fin (totalMonths : ℚ))
  let totalRental := totalPayment.sub (JSVal.fin bankShare)
  { propertyValue := roundToTwoDecimals principal
    customerInitialShare := roundToTwoDecimals customerContribution
    bankShare := roundToTwoDecimals bankShare
    rentalRate := rentalRate
    monthlyPayment := monthlyPayment.round2
    totalPayment := totalPayment.round2
    totalRental := totalRental.round2
    totalMonths := totalMonths }

/-- Modelled from the spec: rounding to 2 decimals with ties going away
from zero at 0.01 granularity, used only to compare the specified rounding
mode against the implementation's Math.round-based rounding. -/
def roundHalfAwayTwo (x : ℚ) : ℚ :=
  if 0 ≤ x then ((⌊x * 100 + 1 / 2⌋ : ℤ) : ℚ) / 100
  else -(((⌊(-x) * 100 + 1 / 2⌋ : ℤ) : ℚ) / 100)

/-- The rounding utility moves a value by at most half a cent. -/
theorem abs_roundToTwoDecimals_sub (x : ℚ) : |roundToTwoDecimals x - x| ≤ 1 / 200 := by
  have h1 : x * 100 + 1 / 2 - 1 < ((⌊x * 100 + 1 / 2⌋ : ℤ) : ℚ) := Int.sub_one_lt_floor _
  have h2 : ((⌊x * 100 + 1 / 2⌋ : ℤ) : ℚ) ≤ x * 100 + 1 / 2 := Int.floor_le _
  rw [roundToTwoDecimals, abs_le]
  constructor <;> linarith

/-- Rounding to two decimals commutes with adding an integer. -/
theorem roundToTwoDecimals_intCast_add (k : ℤ) (x : ℚ) :
    roundToTwoDecimals ((k : ℚ) + x) = (k : ℚ) + roundToTwoDecimals x := by
  have hshift : ((k : ℚ) + x) * 100 + 1 / 2 = ((k * 100 : ℤ) : ℚ) + (x * 100 + 1 / 2) := by
    push_cast
    ring
  rw [roundToTwoDecimals, roundToTwoDecimals, hshift, Int.floor_int_add]
  push_cast
  ring

/-- An integer number of currency units is fixed by the rounding utility. -/
theorem roundToTwoDecimals_intCast (k : ℤ) : roundToTwoDecimals (k : ℚ) = (k : ℚ) := by
  have h := roundToTwoDecimals_intCast_add k 0
  have h0 : roundToTwoDecimals 0 = 0 := by
    rw [roundToTwoDecimals]
    norm_num
  rw [add_zero] at h
  rw [h, h0, add_zero]

/-- Rounding preserves non-negativity. -/
theorem roundToTwoDecimals_nonneg {x : ℚ} (hx : 0 ≤ x) : 0 ≤ roundToTwoDecimals x := by
  rw [roundToTwoDecimals]
  have hfl : (0 : ℤ) ≤ ⌊x * 100 + 1 / 2⌋ := by
    apply Int.le_floor.2
    push_cast
    linarith
  have : (0 : ℚ) ≤ ((⌊x * 100 + 1 / 2⌋ : ℤ) : ℚ) := by exact_mod_cast hfl
  linarith

/-- The schedule loop emits exactly one row per remaining month. -/
theorem amortAux_length (MP r : ℚ) :
    ∀ (k month : ℕ) (b ci cp : ℚ), (amortAux MP r k month b ci cp).length = k := by
  intro k
  induction k with
  | zero => intro month b ci cp; rfl
  | succ n ih =>
      intro month b ci cp
      rw [amortAux]
      simp only [List.length_cons, ih]

/-- The schedule loop emits months consecutively ascending from its start month. -/
theorem amortAux_months (MP r : ℚ) :
    ∀ (k month : ℕ) (b ci cp : ℚ),
      (amortAux MP r k month b ci cp).map AmortRow.month = List.range' month k := by
  intro k
  induction k with
  | zero => intro month b ci cp; rfl
  | succ n ih =>
      intro month b ci cp
      rw [amortAux, List.range'_succ]
      simp only [List.map_cons, ih]

/-- Every balance emitted by the schedule loop is non-negative: the raw
balance passes through max 0 and the rounding preserves non-negativity. -/
theorem amortAux_balance_nonneg (MP r : ℚ) :
    ∀ (k month : ℕ) (b ci cp : ℚ),
      (amortAux MP r k month b ci cp).all (fun row => decide (0 ≤ row.balance)) = true := by
  intro k
  induction k with
  | zero => intro month b ci cp; rfl
  | succ n ih =>
      intro month b ci cp
      rw [amortAux]
      simp only [List.all_cons, Bool.and_eq_true, decide_eq_true_eq]
      exact ⟨roundToTwoDecimals_nonneg (le_max_left 0 _), ih _ _ _ _⟩

/-- Evaluation helper: roundToTwoDecimals x = q once the floor argument is
bracketed by an explicit integer k. -/
theorem roundTwoEq (x q : ℚ) (k : ℤ) (h1 : (k : ℚ) ≤ x * 100 + 1 / 2)
    (h2 : x * 100 + 1 / 2 < k + 1) (hq : (k : ℚ) / 100 = q) :
    roundToTwoDecimals x = q := by
  rw [roundToTwoDecimals, show ⌊x * 100 + 1 / 2⌋ = k from Int.floor_eq_iff.2 ⟨h1, h2⟩]
  exact hq

/-- Rounding fixes zero. -/
theorem roundToTwoDecimals_zero : roundToTwoDecimals 0 = 0 := by
  have h := roundToTwoDecimals_intCast 0
  simpa using h

/-- On non-negative values the implementation rounding agrees with
round-half-away-from-zero. -/
theorem roundToTwoDecimals_eq_roundHalfAwayTwo {x : ℚ} (hx : 0 ≤ x) :
    roundToTwoDecimals x = roundHalfAwayTwo x := by
  rw [roundToTwoDecimals, roundHalfAwayTwo, if_pos hx]

/-- Claim C6 (confirmed): with annual rate 0, calculateMonthlyPayment takes
the zero-rate branch and returns monthlyPayment = principal/(tenure*12)
exactly, totalPayment = principal, totalInterest = 0 and effectiveRate = 0. -/
theorem zeroRate_branch_exact (P : ℚ) (t : ℕ) (hP : 0 ≤ P) (ht : 0 < t) :
    (calculateMonthlyPayment P 0 t).monthlyPayment = P / ((t : ℚ) * 12) ∧
    (calculateMonthlyPayment P 0 t).totalPayment = P ∧
    (calculateMonthlyPayment P 0 t).totalInterest = 0 ∧
    (calculateMonthlyPayment P 0 t).effectiveRate = 0 := by
  have h0 : ((0 : ℚ) / 100 / 12) = 0 := by norm_num
  refine ⟨?_, ?_, ?_, ?_⟩ <;> simp [calculateMonthlyPayment, h0]

/-- Witness for C6 at principal 100, tenure 1. -/
theorem zeroRate_branch_exact_witness :
    (0 : ℚ) ≤ 100 ∧ 0 < 1 ∧
      (calculateMonthlyPayment 100 0 1).monthlyPayment = 100 / ((1 : ℚ) * 12) := by
  exact ⟨by norm_num, by norm_num, (zeroRate_branch_exact 100 1 (by norm_num) (by norm_num)).1⟩

/-- Claim C10 (confirmed): calculateIslamicMM has no zero-rate guard, so at
rentalRate 0 the annuity denominator (1+0)^n - 1 is 0 and monthlyPayment,
totalPayment and totalRental are all NaN, while calculateMonthlyPayment
special-cases the zero rate and returns defined values. -/
theorem islamicMM_zeroRate_nan (p c : ℚ) (t : ℕ) (ht : 0 < t) (hshare : 0 < p - c) :
    (calculateIslamicMM p c 0 t).monthlyPayment = JSVal.nan ∧
    (calculateIslamicMM p c 0 t).totalPayment = JSVal.nan ∧
    (calculateIslamicMM p c 0 t).totalRental = JSVal.nan ∧
    (calculateMonthlyPayment p 0 t).monthlyPayment = p / ((t : ℚ) * 12) ∧
    (calculateMonthlyPayment p 0 t).totalInterest = 0 := by
  have h0 : ((0 : ℚ) / 100 / 12) = 0 := by norm_num
  refine ⟨?_, ?_, ?_, ?_, ?_⟩ <;>
    simp [calculateIslamicMM, calculateMonthlyPayment, h0, JSVal.mul, JSVal.sub, JSVal.round2]

/-- Witness for C10 at property value 500000, customer contribution 100000,
tenure 30. -/
theorem islamicMM_zeroRate_nan_witness :
    (0 < 30) ∧ (0 : ℚ) < 500000 - 100000 ∧
      (calculateIslamicMM 500000 100000 0 30).monthlyPayment = JSVal.nan := by
  exact ⟨by norm_num, by norm_num,
    (islamicMM_zeroRate_nan 500000 100000 30 (by norm_num) (by norm_num)).1⟩

/-- Counterexample to claim C5: in the zero-rate branch the outputs are not
rounded at all, so at principal 100, rate 0, tenure 1 the returned
monthlyPayment is 25/3, not the half-away-from-zero rounding 8.33 of the
exact value. -/
theorem rounding_claim_counterexample :
    (calculateMonthlyPayment 100 0 1).monthlyPayment = 25 / 3 ∧
    roundHalfAwayTwo (25 / 3) = 833 / 100 ∧
    (calculateMonthlyPayment 100 0 1).monthlyPayment ≠ roundHalfAwayTwo (25 / 3) := by
  have h0 : ((0 : ℚ) / 100 / 12) = 0 := by norm_num
  have hmp : (calculateMonthlyPayment 100 0 1).monthlyPayment = 25 / 3 := by
    simp [calculateMonthlyPayment, h0]
    norm_num
  have hfloor : ⌊(25 / 3 : ℚ) * 100 + 1 / 2⌋ = 833 :=
    Int.floor_eq_iff.2 ⟨by norm_num, by norm_num⟩
  have hr : roundHalfAwayTwo (25 / 3) = 833 / 100 := by
    rw [roundHalfAwayTwo, if_pos (by norm_num : (0 : ℚ) ≤ 25 / 3), hfloor]
    norm_num
  exact ⟨hmp, hr, by rw [hmp, hr]; norm_num⟩

/-- Claim C5 as amended: in the nonzero-rate branch every output equals the
exact value rounded by Math.round(100 x)/100 (round half up), and that
rounding agrees with round-half-away-from-zero on non-negative values; the
zero-rate branch returns its values unrounded. -/
theorem rounding_amended :
    (∀ (P rate : ℚ) (t : ℕ), rate ≠ 0 →
      (calculateMonthlyPayment P rate t).monthlyPayment
        = roundToTwoDecimals (P * (rate / 100 / 12 * (1 + rate / 100 / 12) ^ (t * 12)) /
            ((1 + rate / 100 / 12) ^ (t * 12) - 1)) ∧
      (calculateMonthlyPayment P rate t).totalPayment
        = roundToTwoDecimals (P * (rate / 100 / 12 * (1 + rate / 100 / 12) ^ (t * 12)) /
            ((1 + rate / 100 / 12) ^ (t * 12) - 1) * ((t * 12 : ℕ) : ℚ)) ∧
      (calculateMonthlyPayment P rate t).totalInterest
        = roundToTwoDecimals (P * (rate / 100 / 12 * (1 + rate / 100 / 12) ^ (t * 12)) /
            ((1 + rate / 100 / 12) ^ (t * 12) - 1) * ((t * 12 : ℕ) : ℚ) - P) ∧
      (calculateMonthlyPayment P rate t).effectiveRate
        = roundToTwoDecimals ((P * (rate / 100 / 12 * (1 + rate / 100 / 12) ^ (t * 12)) /
            ((1 + rate / 100 / 12) ^ (t * 12) - 1) * ((t * 12 : ℕ) : ℚ) - P) / P * 100)) ∧
    (∀ x : ℚ, 0 ≤ x → roundToTwoDecimals x = roundHalfAwayTwo x) := by
  constructor
  · intro P rate t hrate
    have hmr : rate / 100 / 12 ≠ 0 := by
      intro h
      apply hrate
      field_simp at h
      exact h
    refine ⟨?_, ?_, ?_, ?_⟩ <;> simp [calculateMonthlyPayment, hmr]
  · intro x hx
    exact roundToTwoDecimals_eq_roundHalfAwayTwo hx

/-- Witness for C5 (amended) at principal 1, rate 1200, tenure 1 and at the
non-negative value 5. -/
theorem rounding_amended_witness :
    ((1200 : ℚ) ≠ 0 ∧
      (calculateMonthlyPayment 1 1200 1).monthlyPayment
        = roundToTwoDecimals ((1 : ℚ) * (1200 / 100 / 12 * (1 + 1200 / 100 / 12) ^ (1 * 12)) /
            ((1 + 1200 / 100 / 12) ^ (1 * 12) - 1))) ∧
    ((0 : ℚ) ≤ 5 ∧ roundToTwoDecimals (5 : ℚ) = roundHalfAwayTwo 5) := by
  exact ⟨⟨by norm_num, (rounding_amended.1 1 1200 1 (by norm_num)).1⟩,
    ⟨by norm_num, rounding_amended.2 5 (by norm_num)⟩⟩

/-- Claim C4 as amended: a simulated month is treated as the final month
(balance set to 0, interest still charged on the pre-payment balance,
totalPaid increased by exactly balance plus interest) if and only if the
full payment, baseline monthly payment plus extraMonthly — equivalently the
effective principal reduction plus that month's interest — meets or exceeds
the remaining balance.  The interest component is the pre-payment balance
times the monthly rate in either case. -/
theorem extraMonthStep_final_iff (MP r extra b : ℚ) (hb : 0 < b) (hr : 0 ≤ r) :
    (extraMonthStep MP r extra b).2.1 = b * r ∧
    (extraMonthStep MP r extra b = (0, b * r, b + b * r) ↔ b ≤ MP + extra) := by
  have hcond : MP - b * r + extra + b * r = MP + extra := by ring
  by_cases h : b ≤ MP - b * r + extra + b * r
  · have hle : b ≤ MP + extra := by rw [hcond] at h; exact h
    constructor
    · simp [extraMonthStep, if_pos h]
    · constructor
      · intro _; exact hle
      · intro _; simp [extraMonthStep, if_pos h]
  · have hnle : ¬ b ≤ MP + extra := by rw [hcond] at h; exact h
    constructor
    · simp [extraMonthStep, if_neg h]
    · constructor
      · intro heq
        have h3 : MP + extra = b + b * r := by
          have := congrArg (fun p : ℚ × ℚ × ℚ => p.2.2) heq
          simpa [extraMonthStep, if_neg h] using this
        exact absurd (by nlinarith : b ≤ MP + extra) hnle
      · intro hle
        exact absurd hle hnle

/-- Witness for C4 (amended) at payment 10, rate 0, no extra, balance 5. -/
theorem extraMonthStep_final_iff_witness :
    (0 : ℚ) < 5 ∧ (0 : ℚ) ≤ 0 ∧
      (extraMonthStep 10 0 0 5 = (0, 5 * 0, 5 + 5 * 0) ↔ (5 : ℚ) ≤ 10 + 0) := by
  exact ⟨by norm_num, by norm_num, (extraMonthStep_final_iff 10 0 0 5 (by norm_num) (by norm_num)).2⟩

/-- Counterexample to claim C4 as stated: at principal 102375/1024 (about
99.98), rate 1200, tenure 1, the baseline monthly payment is exactly 100;
in month 1 the effective principal reduction (payment minus interest, plus
extra) is about 0.024, far below the balance, yet the code treats month 1
as final: the simulation ends after exactly 1 month with balance set to 0,
interest charged on the pre-payment balance and totalPaid = balance +
interest.  So truncation is not equivalent to reduction >= balance. -/
theorem extraPayment_truncation_counterexample :
    (calculateMonthlyPayment (102375 / 1024) 1200 1).monthlyPayment = 100 ∧
    extraLoop 100 ((1200 : ℚ) / 100 / 12) 0 0 1 24 ⟨102375 / 1024, 0, 0, 0⟩
      = some ⟨0, 102375 / 1024, 102375 / 512, 1⟩ ∧
    (calculateExtraPaymentImpact (102375 / 1024) 1200 1 0 0 1 24).map
      ExtraImpact.extraTotalMonths = some 1 ∧
    (100 - (102375 / 1024 : ℚ) * ((1200 : ℚ) / 100 / 12)) + 0 < 102375 / 1024 := by
  have hmr : (1200 : ℚ) / 100 / 12 ≠ 0 := by norm_num
  have hraw : (102375 / 1024 : ℚ) * ((1200 / 100 / 12) * (1 + 1200 / 100 / 12) ^ (1 * 12)) /
      ((1 + 1200 / 100 / 12) ^ (1 * 12) - 1) = 100 := by norm_num
  have hmp : (calculateMonthlyPayment (102375 / 1024) 1200 1).monthlyPayment = 100 := by
    have h := roundTwoEq 100 100 10000 (by norm_num) (by norm_num) (by norm_num)
    simp only [calculateMonthlyPayment, if_neg hmr]
    rw [hraw]
    exact h
  have hloop : extraLoop 100 ((1200 : ℚ) / 100 / 12) 0 0 1 24 ⟨102375 / 1024, 0, 0, 0⟩
      = some ⟨0, 102375 / 1024, 102375 / 512, 1⟩ := by
    norm_num [extraLoop, extraMonthStep]
  refine ⟨hmp, hloop, ?_, by norm_num⟩
  simp only [calculateExtraPaymentImpact, hmp, hloop]
  rfl

/-- With monthly payment 0, monthly rate 1, no extra payment and no lump
sum, every loop iteration doubles a positive balance, so the while-loop
never exits: the fuel-indexed runner returns none for every fuel value. -/
theorem extraLoop_doubling_diverges :
    ∀ (fuel : ℕ) (s : ExtraState), 0 < s.balance →
      extraLoop 0 1 0 0 1 fuel s = none := by
  intro fuel
  induction fuel with
  | zero => intro s hs; rfl
  | succ n ih =>
      intro s hs
      have hb0 : ¬ s.balance ≤ 0 := not_le.2 hs
      simp [extraLoop, extraMonthStep, hb0]
      exact ih _ (by simp; linarith)

/-- Claim C3 (code bug): at principal 1/250, annual rate 1200, tenure 1,
the rounded baseline monthly payment is 0, which does not exceed the first
month's interest; the source has no NonAmortizing detection and its
while (balance > 0) loop never terminates on this input — the fuel-indexed
embedding returns none for every fuel bound, so calculateExtraPaymentImpact
never produces a result, instead of failing with a NonAmortizing error. -/
theorem extraPayment_nonamortizing_diverges (fuel : ℕ) :
    (calculateMonthlyPayment (1 / 250) 1200 1).monthlyPayment + 0
        ≤ (1 / 250 : ℚ) * ((1200 : ℚ) / 100 / 12) ∧
    extraLoop ((calculateMonthlyPayment (1 / 250) 1200 1).monthlyPayment)
        ((1200 : ℚ) / 100 / 12) 0 0 1 fuel ⟨1 / 250, 0, 0, 0⟩ = none ∧
    calculateExtraPaymentImpact (1 / 250) 1200 1 0 0 1 fuel = none := by
  have hmr : (1200 : ℚ) / 100 / 12 ≠ 0 := by norm_num
  have hraw : (1 / 250 : ℚ) * ((1200 / 100 / 12) * (1 + 1200 / 100 / 12) ^ (1 * 12)) /
      ((1 + 1200 / 100 / 12) ^ (1 * 12) - 1) = 2048 / 511875 := by norm_num
  have hmp : (calculateMonthlyPayment (1 / 250) 1200 1).monthlyPayment = 0 := by
    have h := roundTwoEq (2048 / 511875) 0 0 (by norm_num) (by norm_num) (by norm_num)
    simp only [calculateMonthlyPayment, if_neg hmr]
    rw [hraw]
    exact h
  have hr1 : (1200 : ℚ) / 100 / 12 = 1 := by norm_num
  have hloop : extraLoop ((calculateMonthlyPayment (1 / 250) 1200 1).monthlyPayment)
      ((1200 : ℚ) / 100 / 12) 0 0 1 fuel ⟨1 / 250, 0, 0, 0⟩ = none := by
    rw [hmp, hr1]
    exact extraLoop_doubling_diverges fuel _ (by norm_num)
  refine ⟨?_, hloop, ?_⟩
  · rw [hmp]; norm_num
  · simp only [calculateExtraPaymentImpact, hloop]

/-- Rounding the difference x - P differs from subtracting P from the
rounded x by at most one cent. -/
theorem roundTwo_sub_round_sub (x P : ℚ) :
    |roundToTwoDecimals (x - P) - (roundToTwoDecimals x - P)| ≤ 1 / 100 := by
  have a := abs_roundToTwoDecimals_sub (x - P)
  have b := abs_roundToTwoDecimals_sub x
  rw [abs_le] at a b ⊢
  constructor <;> linarith

/-- Claim C1 as amended: for positive principal, rate and tenure the
returned monthlyPayment is exactly the annuity formula value rounded to two
decimals (hence within 0.005 of the formula), totalPayment is within 0.005
of the unrounded formula payment times totalMonths (the returned, rounded
monthlyPayment times totalMonths can differ from totalPayment by up to
0.005 x totalMonths, so the claimed 0.01 bound holds only against the
unrounded payment), and totalInterest equals totalPayment - principal
within 0.01 as claimed. -/
theorem annuity_identities (P rate : ℚ) (t : ℕ) (hP : 0 < P) (hr : 0 < rate) (ht : 0 < t) :
    (calculateMonthlyPayment P rate t).monthlyPayment
      = roundToTwoDecimals (P * (rate / 100 / 12 * (1 + rate / 100 / 12) ^ (t * 12)) /
          ((1 + rate / 100 / 12) ^ (t * 12) - 1)) ∧
    |(calculateMonthlyPayment P rate t).monthlyPayment
      - P * (rate / 100 / 12 * (1 + rate / 100 / 12) ^ (t * 12)) /
          ((1 + rate / 100 / 12) ^ (t * 12) - 1)| ≤ 1 / 200 ∧
    |(calculateMonthlyPayment P rate t).totalPayment
      - P * (rate / 100 / 12 * (1 + rate / 100 / 12) ^ (t * 12)) /
          ((1 + rate / 100 / 12) ^ (t * 12) - 1) * ((t * 12 : ℕ) : ℚ)| ≤ 1 / 200 ∧
    |(calculateMonthlyPayment P rate t).totalInterest
      - ((calculateMonthlyPayment P rate t).totalPayment - P)| ≤ 1 / 100 := by
  have hmr : rate / 100 / 12 ≠ 0 := by
    have : 0 < rate / 100 / 12 := by positivity
    exact ne_of_gt this
  have h1 : (calculateMonthlyPayment P rate t).monthlyPayment
      = roundToTwoDecimals (P * (rate / 100 / 12 * (1 + rate / 100 / 12) ^ (t * 12)) /
          ((1 + rate / 100 / 12) ^ (t * 12) - 1)) := by
    simp only [calculateMonthlyPayment, if_neg hmr]
  have h2 : (calculateMonthlyPayment P rate t).totalPayment
      = roundToTwoDecimals (P * (rate / 100 / 12 * (1 + rate / 100 / 12) ^ (t * 12)) /
          ((1 + rate / 100 / 12) ^ (t * 12) - 1) * ((t * 12 : ℕ) : ℚ)) := by
    simp only [calculateMonthlyPayment, if_neg hmr]
  have h3 : (calculateMonthlyPayment P rate t).totalInterest
      = roundToTwoDecimals (P * (rate / 100 / 12 * (1 + rate / 100 / 12) ^ (t * 12)) /
          ((1 + rate / 100 / 12) ^ (t * 12) - 1) * ((t * 12 : ℕ) : ℚ) - P) := by
    simp only [calculateMonthlyPayment, if_neg hmr]
  refine ⟨h1, ?_, ?_, ?_⟩
  · rw [h1]
    exact abs_roundToTwoDecimals_sub _
  · rw [h2]
    exact abs_roundToTwoDecimals_sub _
  · rw [h3, h2]
    exact roundTwo_sub_round_sub _ _

/-- Witness for C1 (amended) at principal 1, rate 1200, tenure 1. -/
theorem annuity_identities_witness :
    (0 : ℚ) < 1 ∧ (0 : ℚ) < 1200 ∧ 0 < 1 ∧
      |(calculateMonthlyPayment 1 1200 1).totalInterest
        - ((calculateMonthlyPayment 1 1200 1).totalPayment - 1)| ≤ 1 / 100 := by
  exact ⟨by norm_num, by norm_num, by norm_num,
    (annuity_identities 1 1200 1 (by norm_num) (by norm_num) (by norm_num)).2.2.2⟩

/-- Counterexample to claim C1 as stated: at principal 4095/819200
(about 0.005), rate 1200, tenure 1, the raw annuity payment is exactly
0.005, which rounds up to monthlyPayment 0.01 while totalPayment rounds to
0.06; the returned totalPayment then differs from the returned
monthlyPayment times totalMonths (0.12) by 0.06, far beyond the claimed
0.01 tolerance. -/
theorem annuity_identities_counterexample :
    (0 : ℚ) < 4095 / 819200 ∧ (0 : ℚ) < 1200 ∧ 0 < 1 ∧
    (calculateMonthlyPayment (4095 / 819200) 1200 1).monthlyPayment = 1 / 100 ∧
    (calculateMonthlyPayment (4095 / 819200) 1200 1).totalPayment = 3 / 50 ∧
    ¬ |(calculateMonthlyPayment (4095 / 819200) 1200 1).totalPayment
        - (calculateMonthlyPayment (4095 / 819200) 1200 1).monthlyPayment
            * ((1 * 12 : ℕ) : ℚ)| ≤ 1 / 100 := by
  have hmr : (1200 : ℚ) / 100 / 12 ≠ 0 := by norm_num
  have hraw : (4095 / 819200 : ℚ) * ((1200 / 100 / 12) * (1 + 1200 / 100 / 12) ^ (1 * 12)) /
      ((1 + 1200 / 100 / 12) ^ (1 * 12) - 1) = 1 / 200 := by norm_num
  have hraw2 : (4095 / 819200 : ℚ) * ((1200 / 100 / 12) * (1 + 1200 / 100 / 12) ^ (1 * 12)) /
      ((1 + 1200 / 100 / 12) ^ (1 * 12) - 1) * ((1 * 12 : ℕ) : ℚ) = 3 / 50 := by norm_num
  have hmp : (calculateMonthlyPayment (4095 / 819200) 1200 1).monthlyPayment = 1 / 100 := by
    have h := roundTwoEq (1 / 200) (1 / 100) 1 (by norm_num) (by norm_num) (by norm_num)
    simp only [calculateMonthlyPayment, if_neg hmr]
    rw [hraw]
    exact h
  have htp : (calculateMonthlyPayment (4095 / 819200) 1200 1).totalPayment = 3 / 50 := by
    have h := roundTwoEq (3 / 50) (3 / 50) 6 (by norm_num) (by norm_num) (by norm_num)
    simp only [calculateMonthlyPayment, if_neg hmr]
    rw [hraw2]
    exact h
  refine ⟨by norm_num, by norm_num, by norm_num, hmp, htp, ?_⟩
  rw [hmp, htp]
  rw [abs_le]
  norm_num

/-- Claim C2 as amended: for every input the schedule has exactly
tenure*12 rows, the month column is 1, 2, ..., tenure*12 in ascending
order, and no emitted balance is negative.  The balance column need not be
non-increasing and the final balance need not be 0.00: when the rounded
monthly payment does not cover the interest (tiny principals) the balance
grows and the final row is positive. -/
theorem schedule_shape (P rate : ℚ) (t : ℕ) :
    (generateAmortizationSchedule P rate t).length = t * 12 ∧
    (generateAmortizationSchedule P rate t).map AmortRow.month = List.range' 1 (t * 12) ∧
    (generateAmortizationSchedule P rate t).all
      (fun row => decide (0 ≤ row.balance)) = true := by
  unfold generateAmortizationSchedule
  exact ⟨amortAux_length _ _ _ _ _ _ _, amortAux_months _ _ _ _ _ _ _,
    amortAux_balance_nonneg _ _ _ _ _ _ _⟩

/-- Counterexample to claim C2 as stated: at principal 1/250 (0.004), rate
1200, tenure 1 the rounded monthly payment is 0, the balance doubles every
month, so the emitted balances increase (0.01 in row 1, 0.02 in row 2) and
the final row's balance is 16.38, not 0.00. -/
theorem schedule_shape_counterexample :
    (0 : ℚ) < 1 / 250 ∧ (0 : ℚ) ≤ 1200 ∧ 0 < 1 ∧
    ((generateAmortizationSchedule (1 / 250) 1200 1).map AmortRow.balance)[0]?
      = some (1 / 100) ∧
    ((generateAmortizationSchedule (1 / 250) 1200 1).map AmortRow.balance)[1]?
      = some (1 / 50) ∧
    ((generateAmortizationSchedule (1 / 250) 1200 1).map AmortRow.balance)[11]?
      = some (819 / 50) ∧
    (1 / 100 : ℚ) < 1 / 50 ∧ (819 / 50 : ℚ) ≠ 0 := by
  have hmr : (1200 : ℚ) / 100 / 12 ≠ 0 := by norm_num
  have hraw : (1 / 250 : ℚ) * ((1200 / 100 / 12) * (1 + 1200 / 100 / 12) ^ (1 * 12)) /
      ((1 + 1200 / 100 / 12) ^ (1 * 12) - 1) = 2048 / 511875 := by norm_num
  have hmp : (calculateMonthlyPayment (1 / 250) 1200 1).monthlyPayment = 0 := by
    have h := roundTwoEq (2048 / 511875) 0 0 (by norm_num) (by norm_num) (by norm_num)
    simp only [calculateMonthlyPayment, if_neg hmr]
    rw [hraw]
    exact h
  have e1 : roundToTwoDecimals (1 / 125) = 1 / 100 :=
    roundTwoEq _ _ 1 (by norm_num) (by norm_num) (by norm_num)
  have e2 : roundToTwoDecimals (2 / 125) = 1 / 50 :=
    roundTwoEq _ _ 2 (by norm_num) (by norm_num) (by norm_num)
  have e12 : roundToTwoDecimals (2048 / 125) = 819 / 50 :=
    roundTwoEq _ _ 1638 (by norm_num) (by norm_num) (by norm_num)
  refine ⟨by norm_num, by norm_num, by norm_num, ?_, ?_, ?_, by norm_num, by norm_num⟩ <;>
    norm_num [generateAmortizationSchedule, amortAux, hmp, e1, e2, e12]

/-- Claim C7 (confirmed): when the monthly difference (current payment
minus proposed payment) is not positive, breakEvenMonths is the explicit
not-applicable sentinel and worthRefinancing is false regardless of the
sign of netSavings; when it is positive, breakEvenMonths is
ceil(closingCosts / monthlyDifference) and worthRefinancing holds exactly
when netSavings is positive and the break-even month count is below the
proposed tenure in months. -/
theorem refinancing_breakeven (cur : CurrentLoan) (nl : NewLoan) :
    ((calculateMonthlyPayment cur.balance cur.rate cur.remainingYears).monthlyPayment
        - (calculateMonthlyPayment cur.balance nl.rate nl.tenureYears).monthlyPayment ≤ 0 →
      (compareRefinancing cur nl).breakEvenMonths = none ∧
      (compareRefinancing cur nl).worthRefinancing = false) ∧
    (0 < (calculateMonthlyPayment cur.balance cur.rate cur.remainingYears).monthlyPayment
        - (calculateMonthlyPayment cur.balance nl.rate nl.tenureYears).monthlyPayment →
      (compareRefinancing cur nl).breakEvenMonths
        = some ⌈nl.closingCosts /
            ((calculateMonthlyPayment cur.balance cur.rate cur.remainingYears).monthlyPayment
              - (calculateMonthlyPayment cur.balance nl.rate nl.tenureYears).monthlyPayment)⌉ ∧
      ((compareRefinancing cur nl).worthRefinancing = true ↔
        (0 < (calculateMonthlyPayment cur.balance cur.rate cur.remainingYears).totalInterest
            - (calculateMonthlyPayment cur.balance nl.rate nl.tenureYears).totalInterest
            - nl.closingCosts ∧
          ⌈nl.closingCosts /
            ((calculateMonthlyPayment cur.balance cur.rate cur.remainingYears).monthlyPayment
              - (calculateMonthlyPayment cur.balance nl.rate nl.tenureYears).monthlyPayment)⌉
            < (nl.tenureYears * 12 : ℤ)))) := by
  constructor
  · intro hle
    have hnot : ¬ (0 < (calculateMonthlyPayment cur.balance cur.rate
        cur.remainingYears).monthlyPayment
        - (calculateMonthlyPayment cur.balance nl.rate nl.tenureYears).monthlyPayment) :=
      not_lt.2 hle
    constructor
    · simp only [compareRefinancing, if_neg hnot]
    · simp only [compareRefinancing, if_neg hnot, Bool.and_false]
  · intro hlt
    constructor
    · simp only [compareRefinancing, if_pos hlt]
    · simp only [compareRefinancing, if_pos hlt]
      rw [Bool.and_eq_true, decide_eq_true_iff, decide_eq_true_iff]

/-- Witness for C7 at a current loan (balance 100, rate 1200, 1 year
remaining) refinanced to rate 0, 1 year, closing costs 10: the monthly
difference is positive, so a numeric break-even month count is produced. -/
theorem refinancing_breakeven_witness :
    0 < (calculateMonthlyPayment (100 : ℚ) 1200 1).monthlyPayment
        - (calculateMonthlyPayment (100 : ℚ) 0 1).monthlyPayment ∧
    (compareRefinancing ⟨100, 1200, 1⟩ ⟨0, 1, 10⟩).breakEvenMonths
      = some ⌈(10 : ℚ) /
          ((calculateMonthlyPayment (100 : ℚ) 1200 1).monthlyPayment
            - (calculateMonthlyPayment (100 : ℚ) 0 1).monthlyPayment)⌉ := by
  have hmr : (1200 : ℚ) / 100 / 12 ≠ 0 := by norm_num
  have h0 : ((0 : ℚ) / 100 / 12) = 0 := by norm_num
  have hraw : (100 : ℚ) * ((1200 / 100 / 12) * (1 + 1200 / 100 / 12) ^ (1 * 12)) /
      ((1 + 1200 / 100 / 12) ^ (1 * 12) - 1) = 81920 / 819 := by norm_num
  have hcp : (calculateMonthlyPayment (100 : ℚ) 1200 1).monthlyPayment = 5001 / 50 := by
    have h := roundTwoEq (81920 / 819) (5001 / 50) 10002 (by norm_num) (by norm_num)
      (by norm_num)
    simp only [calculateMonthlyPayment, if_neg hmr]
    rw [hraw]
    exact h
  have hpp : (calculateMonthlyPayment (100 : ℚ) 0 1).monthlyPayment = 25 / 3 := by
    simp [calculateMonthlyPayment, h0]
    norm_num
  have hpos : 0 < (calculateMonthlyPayment (100 : ℚ) 1200 1).monthlyPayment
      - (calculateMonthlyPayment (100 : ℚ) 0 1).monthlyPayment := by
    rw [hcp, hpp]; norm_num
  exact ⟨hpos, ((refinancing_breakeven ⟨100, 1200, 1⟩ ⟨0, 1, 10⟩).2 hpos).1⟩

/-- Tier walk evaluated on the first tier only (0 < price <= 100000). -/
theorem tierWalk_eval_low (p : ℚ) (h0 : 0 < p) (h1 : p ≤ 100000) :
    tierWalk motTiers p
      = (p * (1 / 100),
         [⟨1 / 100, roundToTwoDecimals p, roundToTwoDecimals (p * (1 / 100))⟩]) := by
  have ha : p ⊓ (100000 : ℚ) = p := inf_eq_left.2 h1
  norm_num [tierWalk, motTiers, not_le.2 h0, ha]

/-- Tier walk evaluated on two tiers (100000 < price <= 500000). -/
theorem tierWalk_eval_mid (p : ℚ) (h1 : 100000 < p) (h2 : p ≤ 500000) :
    tierWalk motTiers p
      = (1000 + (p - 100000) * (2 / 100),
         [⟨1 / 100, roundToTwoDecimals 100000, roundToTwoDecimals 1000⟩,
          ⟨2 / 100, roundToTwoDecimals (p - 100000),
            roundToTwoDecimals ((p - 100000) * (2 / 100))⟩]) := by
  have h0 : ¬ p ≤ 0 := by linarith
  have ha : p ⊓ (100000 : ℚ) = 100000 := inf_eq_right.2 h1.le
  have hb : (p - (100000 : ℚ)) ⊓ 400000 = p - 100000 := inf_eq_left.2 (by linarith)
  norm_num [tierWalk, motTiers, h0, ha, hb, not_le.2 h1, h2]

/-- Tier walk evaluated on three tiers (500000 < price <= 1000000). -/
theorem tierWalk_eval_high (p : ℚ) (h2 : 500000 < p) (h3 : p ≤ 1000000) :
    tierWalk motTiers p
      = (1000 + (8000 + (p - 500000) * (3 / 100)),
         [⟨1 / 100, roundToTwoDecimals 100000, roundToTwoDecimals 1000⟩,
          ⟨2 / 100, roundToTwoDecimals 400000, roundToTwoDecimals 8000⟩,
          ⟨3 / 100, roundToTwoDecimals (p - 500000),
            roundToTwoDecimals ((p - 500000) * (3 / 100))⟩]) := by
  have h0 : ¬ p ≤ 0 := by linarith
  have h1 : ¬ p ≤ 100000 := by linarith
  have ha : p ⊓ (100000 : ℚ) = 100000 := inf_eq_right.2 (by linarith)
  have hb : (p - (100000 : ℚ)) ⊓ 400000 = 400000 := inf_eq_right.2 (by linarith)
  have hm : p - (100000 : ℚ) - 400000 = p - 500000 := by ring
  have hc : (p - (500000 : ℚ)) ⊓ 500000 = p - 500000 := inf_eq_left.2 (by linarith)
  norm_num [tierWalk, motTiers, h0, h1, ha, hb, hm, hc, not_le.2 h2, h3]

/-- Tier walk evaluated on all four tiers (price > 1000000). -/
theorem tierWalk_eval_top (p : ℚ) (h3 : 1000000 < p) :
    tierWalk motTiers p
      = (1000 + (8000 + (15000 + (p - 1000000) * (4 / 100))),
         [⟨1 / 100, roundToTwoDecimals 100000, roundToTwoDecimals 1000⟩,
          ⟨2 / 100, roundToTwoDecimals 400000, roundToTwoDecimals 8000⟩,
          ⟨3 / 100, roundToTwoDecimals 500000, roundToTwoDecimals 15000⟩,
          ⟨4 / 100, roundToTwoDecimals (p - 1000000),
            roundToTwoDecimals ((p - 1000000) * (4 / 100))⟩]) := by
  have h0 : ¬ p ≤ 0 := by linarith
  have h1 : ¬ p ≤ 100000 := by linarith
  have h2 : ¬ p ≤ 500000 := by linarith
  have ha : p ⊓ (100000 : ℚ) = 100000 := inf_eq_right.2 (by linarith)
  have hb : (p - (100000 : ℚ)) ⊓ 400000 = 400000 := inf_eq_right.2 (by linarith)
  have hm : p - (100000 : ℚ) - 400000 = p - 500000 := by ring
  have hm2 : p - (500000 : ℚ) - 500000 = p - 1000000 := by ring
  have hc : (p - (500000 : ℚ)) ⊓ 500000 = 500000 := inf_eq_right.2 (by linarith)
  norm_num [tierWalk, motTiers, h0, h1, h2, ha, hb, hm, hm2, hc, not_le.2 h3]

/-- In every region of the tier table at most the last visited tier is
partial, and all full tiers carry whole-currency duties, so the rounded
per-tier duties sum to the rounded gross duty. -/
theorem tierWalk_motTiers_sum (p : ℚ) :
    ((tierWalk motTiers p).2.map TierEntry.duty).sum
      = roundToTwoDecimals (tierWalk motTiers p).1 := by
  have e1000 : roundToTwoDecimals (1000 : ℚ) = 1000 :=
    roundTwoEq _ _ 100000 (by norm_num) (by norm_num) (by norm_num)
  have e8000 : roundToTwoDecimals (8000 : ℚ) = 8000 :=
    roundTwoEq _ _ 800000 (by norm_num) (by norm_num) (by norm_num)
  have e15000 : roundToTwoDecimals (15000 : ℚ) = 15000 :=
    roundTwoEq _ _ 1500000 (by norm_num) (by norm_num) (by norm_num)
  rcases le_or_lt p 0 with h0 | h0
  · simp [tierWalk, motTiers, h0, roundToTwoDecimals_zero]
  rcases le_or_lt p 100000 with h1 | h1
  · rw [tierWalk_eval_low p h0 h1]
    simp only [List.map_cons, List.map_nil, List.sum_cons, List.sum_nil, add_zero]
  rcases le_or_lt p 500000 with h2 | h2
  · rw [tierWalk_eval_mid p h1 h2]
    simp only [List.map_cons, List.map_nil, List.sum_cons, List.sum_nil, add_zero]
    have hsh := roundToTwoDecimals_intCast_add 1000 ((p - 100000) * (2 / 100))
    push_cast at hsh
    rw [hsh, e1000]
  rcases le_or_lt p 1000000 with h3 | h3
  · rw [tierWalk_eval_high p h2 h3]
    simp only [List.map_cons, List.map_nil, List.sum_cons, List.sum_nil, add_zero]
    have hmerge : (1000 : ℚ) + (8000 + (p - 500000) * (3 / 100))
        = 9000 + (p - 500000) * (3 / 100) := by ring
    have hsh := roundToTwoDecimals_intCast_add 9000 ((p - 500000) * (3 / 100))
    push_cast at hsh
    rw [hmerge, hsh, e1000, e8000]
    ring
  · rw [tierWalk_eval_top p h3]
    simp only [List.map_cons, List.map_nil, List.sum_cons, List.sum_nil, add_zero]
    have hmerge : (1000 : ℚ) + (8000 + (15000 + (p - 1000000) * (4 / 100)))
        = 24000 + (p - 1000000) * (4 / 100) := by ring
    have hsh := roundToTwoDecimals_intCast_add 24000 ((p - 1000000) * (4 / 100))
    push_cast at hsh
    rw [hmerge, hsh, e1000, e8000, e15000]
    ring

/-- Claim C8 (confirmed): the MOT tier walk taxes min(remaining, width) per
tier in ascending order, its per-tier breakdown sums to grossStampDuty for
every property price, and at price 600000 with no exemptions the gross
duty is 1000 + 8000 + 3000 = 12000. -/
theorem stampDuty_breakdown_sum :
    (∀ (price : ℚ) (ftb hoc : Bool),
      ((calculateStampDutyMOT price ftb hoc).breakdown.map TierEntry.duty).sum
        = (calculateStampDutyMOT price ftb hoc).grossStampDuty) ∧
    (calculateStampDutyMOT 600000 false false).grossStampDuty = 12000 ∧
    (calculateStampDutyMOT 600000 false false).breakdown.map TierEntry.duty
      = [1000, 8000, 3000] := by
  have e3000 : roundToTwoDecimals (3000 : ℚ) = 3000 :=
    roundTwoEq _ _ 300000 (by norm_num) (by norm_num) (by norm_num)
  have e12000 : roundToTwoDecimals (12000 : ℚ) = 12000 :=
    roundTwoEq _ _ 1200000 (by norm_num) (by norm_num) (by norm_num)
  have e1000 : roundToTwoDecimals (1000 : ℚ) = 1000 :=
    roundTwoEq _ _ 100000 (by norm_num) (by norm_num) (by norm_num)
  have e8000 : roundToTwoDecimals (8000 : ℚ) = 8000 :=
    roundTwoEq _ _ 800000 (by norm_num) (by norm_num) (by norm_num)
  have hw := tierWalk_eval_high 600000 (by norm_num) (by norm_num)
  refine ⟨?_, ?_, ?_⟩
  · intro price ftb hoc
    simp only [calculateStampDutyMOT]
    exact tierWalk_motTiers_sum price
  · simp only [calculateStampDutyMOT, hw]
    norm_num [e12000]
  · simp only [calculateStampDutyMOT, hw]
    norm_num [e1000, e8000, e3000]

/-- Claim C9 (confirmed): at most one exemption applies in
calculateStampDutyMOT; the first-time-buyer exemption (price at or below
the 500000 ceiling) removes the full gross duty and takes precedence over
the HOC exemption even when the HOC band also qualifies; the 75 percent
HOC exemption applies only otherwise, when applyHOC holds and the price
lies in the 300000..2500000 band; with neither, the exemption is 0. -/
theorem stampDuty_exemptions (price : ℚ) (ftb hoc : Bool) :
    ((ftb = true ∧ price ≤ 500000) →
      (calculateStampDutyMOT price ftb hoc).exemption
          = (calculateStampDutyMOT price ftb hoc).grossStampDuty ∧
      (calculateStampDutyMOT price ftb hoc).netStampDuty = 0 ∧
      (calculateStampDutyMOT price ftb hoc).exemptionTag = ExemptionTag.firstTimeBuyer) ∧
    (¬ (ftb = true ∧ price ≤ 500000) →
      (hoc = true ∧ 300000 ≤ price ∧ price ≤ 2500000) →
      (calculateStampDutyMOT price ftb hoc).exemption
          = roundToTwoDecimals ((tierWalk motTiers price).1 * (75 / 100)) ∧
      (calculateStampDutyMOT price ftb hoc).exemptionTag = ExemptionTag.hoc) ∧
    (¬ (ftb = true ∧ price ≤ 500000) →
      ¬ (hoc = true ∧ 300000 ≤ price ∧ price ≤ 2500000) →
      (calculateStampDutyMOT price ftb hoc).exemption = 0 ∧
      (calculateStampDutyMOT price ftb hoc).netStampDuty
          = (calculateStampDutyMOT price ftb hoc).grossStampDuty ∧
      (calculateStampDutyMOT price ftb hoc).exemptionTag = ExemptionTag.noExemption) := by
  refine ⟨?_, ?_, ?_⟩
  · intro h
    simp only [calculateStampDutyMOT, if_pos h, mul_one, sub_self]
    simp [roundToTwoDecimals_zero]
  · intro hn h
    simp only [calculateStampDutyMOT, if_neg hn, if_pos h]
    simp
  · intro hn1 hn2
    simp only [calculateStampDutyMOT, if_neg hn1, if_neg hn2, sub_zero]
    simp [roundToTwoDecimals_zero]

/-- Witness for C9 at price 400000 with both exemption flags set: the
first-time-buyer exemption wins and the net duty is zero. -/
theorem stampDuty_exemptions_witness :
    ((true = true ∧ (400000 : ℚ) ≤ 500000) ∧
      (calculateStampDutyMOT 400000 true true).netStampDuty = 0) := by
  have h : (true = true ∧ (400000 : ℚ) ≤ 500000) := ⟨rfl, by norm_num⟩
  exact ⟨h, ((stampDuty_exemptions 400000 true true).1 h).2.1⟩

end Mortgage
